import Mathlib

/-!
Verification of the video-transcoder job (`src/index.ts`, sized-file variant,
and the earlier streaming variant) against its natural-language specification.

The probe metadata, the rendition policies, the audio-option selection and the
encoder argument vectors are embedded as executable Lean definitions translated
from the TypeScript source.  Numeric fields that the source obtains through
JavaScript `parseFloat` are modelled as `Option ℚ`: `none` stands for `NaN`
(any comparison with `NaN` is `false`), `some v` for a finite parsed value.
-/

namespace Transcoder

/-- One entry of the ffprobe `streams` array, restricted to the fields the job
reads: `codec_type`, `codec_name`, and (for video) `height`.  `height` is
`Option Int` because the field may be absent (`videoStream?.height ?? 0`). -/
structure FFprobeStream where
  codec_type : String
  codec_name : String
  height : Option Int
deriving DecidableEq, Repr

/-- The ffprobe `format` object, restricted to the fields the job reads.
`duration` and `size` hold the result of `parseFloat` on the raw string
fields: `none` models `NaN` (missing or unparsable), `some v` a parsed
value. -/
structure FFprobeFormat where
  duration : Option ℚ
  size : Option ℚ
deriving DecidableEq, Repr

/-- The parsed ffprobe output: a list of streams and the format object. -/
structure FFprobeOutput where
  streams : List FFprobeStream
  format : FFprobeFormat
deriving DecidableEq, Repr

/-- `probeResult.streams.find((s) => s.codec_type === "video")`. -/
def videoStream (p : FFprobeOutput) : Option FFprobeStream :=
  p.streams.find? (fun s => s.codec_type == "video")

/-- `probeResult.streams.find((s) => s.codec_type === "audio")`. -/
def audioStream (p : FFprobeOutput) : Option FFprobeStream :=
  p.streams.find? (fun s => s.codec_type == "audio")

/-- The codec name of the video stream, when there is one. -/
def videoCodec (p : FFprobeOutput) : Option String :=
  (videoStream p).map (fun s => s.codec_name)

/-- `videoStream?.height ?? 0`: the video height, defaulting to `0` when the
video stream or its height field is absent. -/
def heightOr0 (p : FFprobeOutput) : Int :=
  ((videoStream p).bind (fun s => s.height)).getD 0

/-- JavaScript `s.endsWith(post)`, modelled on the character sequences of the
two strings: `post` is a suffix of `s`. -/
def strEndsWith (s post : String) : Bool :=
  post.data.isSuffixOf s.data

/-- `hasH264Video = process.env.FILENAME.endsWith(".mp4") &&
videoStream?.codec_name === "h264"`. -/
def hasH264Video (filename : String) (p : FFprobeOutput) : Bool :=
  strEndsWith filename ".mp4" && (videoCodec p == some "h264")

/-- `is720pOrLower = (videoStream?.height ?? 0) <= 720`. -/
def is720pOrLower (p : FFprobeOutput) : Bool :=
  decide (heightOr0 p ≤ 720)

/-- `is1080pOrLower = (videoStream?.height ?? 0) <= 1080`. -/
def is1080pOrLower (p : FFprobeOutput) : Bool :=
  decide (heightOr0 p ≤ 1080)

/-- `hasAACAudio = audioStream?.codec_name === "aac"`. -/
def hasAACAudio (p : FFprobeOutput) : Bool :=
  (audioStream p).map (fun s => s.codec_name) == some "aac"

/-- JavaScript `x <= c` on a `parseFloat` result: comparison with `NaN`
(modelled by `none`) is always `false`. -/
def jsLe (x : Option ℚ) (c : ℚ) : Bool :=
  match x with
  | none => false
  | some v => decide (v ≤ c)

/-- The OGP skip condition, `src/index.ts` line 46:
`hasH264Video && is720pOrLower && durationSec <= 8 * 60 && is50MBOrLower`.
The source bounds `8 * 60` and `50 * 1024 * 1024` are written as the numerals
`480` and `52428800`. -/
def ogpSkip (filename : String) (p : FFprobeOutput) : Bool :=
  hasH264Video filename p && is720pOrLower p &&
    jsLe p.format.duration 480 && jsLe p.format.size 52428800

/-- The Main skip condition, `src/index.ts` line 76:
`hasH264Video && is1080pOrLower`. -/
def mainSkip (filename : String) (p : FFprobeOutput) : Bool :=
  hasH264Video filename p && is1080pOrLower p

/-- `audioOptions = hasAACAudio ? ["-c:a", "copy"] : ["-c:a", "aac", "-b:a", "128k"]`. -/
def audioOptions (p : FFprobeOutput) : List String :=
  if hasAACAudio p then ["-c:a", "copy"] else ["-c:a", "aac", "-b:a", "128k"]

/-- The `-vf` scale filter of the OGP rendition: fit within 1280x720 keeping
aspect ratio, then pad both dimensions to even values (`src/index.ts` line 54,
`part_000` line 47; identical in both variants). -/
def scaleFilter720 : String :=
  "scale=\x27min(1280,iw)\x27:\x27min(720,ih)\x27:force_original_aspect_ratio=decrease,pad=ceil(iw/2)*2:ceil(ih/2)*2"

/-- The `-vf` scale filter of the Main rendition: fit within 1920x1080
(`src/index.ts` line 83, `part_000` line 73; identical in both variants). -/
def scaleFilter1080 : String :=
  "scale=\x27min(1920,iw)\x27:\x27min(1080,ih)\x27:force_original_aspect_ratio=decrease,pad=ceil(iw/2)*2:ceil(ih/2)*2"

/-- Encoder arguments of the OGP rendition in the sized-file variant
(`src/index.ts` lines 50-61); `baseSpawnFFmpeg` appends the temporary output
path after these. -/
def ogpArgsFile (url : String) (p : FFprobeOutput) : List String :=
  ["-hide_banner", "-t", "480", "-i", url, "-vf", scaleFilter720,
   "-c:v", "libx264", "-preset", "veryfast", "-crf", "28",
   "-movflags", "+faststart"] ++ audioOptions p ++ ["-f", "mp4"]

/-- Encoder arguments of the OGP rendition in the streaming variant
(`part_000` lines 45-55). -/
def ogpArgsStream (url : String) (p : FFprobeOutput) : List String :=
  ["-i", url, "-vf", scaleFilter720, "-c:v", "libx264", "-preset", "veryfast",
   "-crf", "28", "-movflags", "frag_keyframe+empty_moov"] ++ audioOptions p ++
    ["-f", "mp4", "pipe:1"]

/-- Encoder arguments of the Main rendition in the sized-file variant
(`src/index.ts` lines 80-90). -/
def mainArgsFile (url : String) (p : FFprobeOutput) : List String :=
  ["-hide_banner", "-i", url, "-vf", scaleFilter1080, "-c:v", "libx264",
   "-preset", "fast", "-crf", "23", "-movflags", "+faststart"] ++
    audioOptions p ++ ["-f", "mp4"]

/-- Encoder arguments of the Main rendition in the streaming variant
(`part_000` lines 71-81). -/
def mainArgsStream (url : String) (p : FFprobeOutput) : List String :=
  ["-i", url, "-vf", scaleFilter1080, "-c:v", "libx264", "-preset", "veryfast",
   "-crf", "23", "-movflags", "frag_keyframe+empty_moov"] ++ audioOptions p ++
    ["-f", "mp4", "pipe:1"]

/-- The encoding parameters of one rendition invocation, named so the two
design variants can be compared field by field. -/
structure EncodeParams where
  hideBanner : Bool
  durationCap : Option String
  vfilter : String
  vcodec : String
  preset : String
  crf : String
  movflags : String
  audio : List String
  outFormat : String
deriving DecidableEq, Repr

/-- Assembles the ffmpeg argument vector from encoding parameters; `toPipe`
appends `pipe:1` (streaming variant), otherwise the executor appends the
temporary path (sized-file variant). -/
def assembleArgs (url : String) (q : EncodeParams) (toPipe : Bool) : List String :=
  (if q.hideBanner then ["-hide_banner"] else []) ++
    (match q.durationCap with
      | some t => ["-t", t]
      | none => []) ++
    ["-i", url, "-vf", q.vfilter, "-c:v", q.vcodec, "-preset", q.preset,
     "-crf", q.crf, "-movflags", q.movflags] ++ q.audio ++
    ["-f", q.outFormat] ++ (if toPipe then ["pipe:1"] else [])

/-- The parameters of the sized-file OGP invocation. -/
def ogpParamsFile (p : FFprobeOutput) : EncodeParams :=
  { hideBanner := true, durationCap := some "480", vfilter := scaleFilter720,
    vcodec := "libx264", preset := "veryfast", crf := "28",
    movflags := "+faststart", audio := audioOptions p, outFormat := "mp4" }

/-- The parameters of the streaming OGP invocation. -/
def ogpParamsStream (p : FFprobeOutput) : EncodeParams :=
  { hideBanner := false, durationCap := none, vfilter := scaleFilter720,
    vcodec := "libx264", preset := "veryfast", crf := "28",
    movflags := "frag_keyframe+empty_moov", audio := audioOptions p,
    outFormat := "mp4" }

/-- The parameters of the sized-file Main invocation. -/
def mainParamsFile (p : FFprobeOutput) : EncodeParams :=
  { hideBanner := true, durationCap := none, vfilter := scaleFilter1080,
    vcodec := "libx264", preset := "fast", crf := "23",
    movflags := "+faststart", audio := audioOptions p, outFormat := "mp4" }

/-- The parameters of the streaming Main invocation. -/
def mainParamsStream (p : FFprobeOutput) : EncodeParams :=
  { hideBanner := false, durationCap := none, vfilter := scaleFilter1080,
    vcodec := "libx264", preset := "veryfast", crf := "23",
    movflags := "frag_keyframe+empty_moov", audio := audioOptions p,
    outFormat := "mp4" }

/- Helper characterisations of the boolean conditions. -/

theorem jsLe_eq_true_iff (x : Option ℚ) (c : ℚ) :
    jsLe x c = true ↔ ∃ v, x = some v ∧ v ≤ c := by
  cases x <;> simp [jsLe]

theorem hasH264Video_eq_true_iff (filename : String) (p : FFprobeOutput) :
    hasH264Video filename p = true ↔
      strEndsWith filename ".mp4" = true ∧
        ∃ vs, videoStream p = some vs ∧ vs.codec_name = "h264" := by
  simp [hasH264Video, videoCodec, Bool.and_eq_true, beq_iff_eq,
    Option.map_eq_some']

theorem heightOr0_of_videoStream {p : FFprobeOutput} {vs : FFprobeStream}
    (h : videoStream p = some vs) : heightOr0 p = vs.height.getD 0 := by
  simp [heightOr0, h]

/-- C1: the OGP rendition policy decides "skip" iff the filename ends in
`.mp4`, the video codec is `h264`, the video height (defaulting to 0) is at
most 720, the parsed duration is at most 480 seconds, and the parsed size is
at most 52428800 bytes; violating any one condition yields "generate". -/
theorem C1_ogp_skip_iff (filename : String) (p : FFprobeOutput) :
    ogpSkip filename p = true ↔
      (strEndsWith filename ".mp4" = true ∧
        (∃ vs, videoStream p = some vs ∧ vs.codec_name = "h264" ∧
          vs.height.getD 0 ≤ 720) ∧
        (∃ d, p.format.duration = some d ∧ d ≤ 480) ∧
        (∃ s, p.format.size = some s ∧ s ≤ 52428800)) := by
  constructor
  · intro h
    simp only [ogpSkip, Bool.and_eq_true] at h
    obtain ⟨⟨⟨hh, h720⟩, hd⟩, hs⟩ := h
    obtain ⟨hext, vs, hvs, hcodec⟩ := (hasH264Video_eq_true_iff filename p).mp hh
    obtain ⟨d, hdeq, hdle⟩ := (jsLe_eq_true_iff _ _).mp hd
    obtain ⟨s, hseq, hsle⟩ := (jsLe_eq_true_iff _ _).mp hs
    have h7 : heightOr0 p ≤ 720 := by simpa [is720pOrLower] using h720
    rw [heightOr0_of_videoStream hvs] at h7
    exact ⟨hext, ⟨vs, hvs, hcodec, h7⟩, ⟨d, hdeq, by linarith⟩,
      ⟨s, hseq, by linarith⟩⟩
  · rintro ⟨hext, ⟨vs, hvs, hcodec, hht⟩, ⟨d, hdeq, hdle⟩, ⟨s, hseq, hsle⟩⟩
    simp only [ogpSkip, Bool.and_eq_true]
    refine ⟨⟨⟨(hasH264Video_eq_true_iff filename p).mpr ⟨hext, vs, hvs, hcodec⟩,
      ?_⟩, ?_⟩, ?_⟩
    · simp [is720pOrLower, heightOr0_of_videoStream hvs, hht]
    · exact (jsLe_eq_true_iff _ _).mpr ⟨d, hdeq, by linarith⟩
    · exact (jsLe_eq_true_iff _ _).mpr ⟨s, hseq, by linarith⟩

/-- C2: the Main rendition policy decides "skip" iff the filename ends in
`.mp4`, the video codec is `h264`, and the video height (defaulting to 0) is
at most 1080; the `format` fields (duration and size) never influence the
Main decision. -/
theorem C2_main_skip_iff (filename : String) (p : FFprobeOutput) :
    (mainSkip filename p = true ↔
      (strEndsWith filename ".mp4" = true ∧
        ∃ vs, videoStream p = some vs ∧ vs.codec_name = "h264" ∧
          vs.height.getD 0 ≤ 1080)) ∧
    (∀ fmt : FFprobeFormat,
      mainSkip filename { p with format := fmt } = mainSkip filename p) := by
  constructor
  · constructor
    · intro h
      simp only [mainSkip, Bool.and_eq_true] at h
      obtain ⟨hh, h1080⟩ := h
      obtain ⟨hext, vs, hvs, hcodec⟩ := (hasH264Video_eq_true_iff filename p).mp hh
      have h10 : heightOr0 p ≤ 1080 := by simpa [is1080pOrLower] using h1080
      rw [heightOr0_of_videoStream hvs] at h10
      exact ⟨hext, vs, hvs, hcodec, h10⟩
    · rintro ⟨hext, vs, hvs, hcodec, hht⟩
      simp only [mainSkip, Bool.and_eq_true]
      exact ⟨(hasH264Video_eq_true_iff filename p).mpr ⟨hext, vs, hvs, hcodec⟩,
        by simp [is1080pOrLower, heightOr0_of_videoStream hvs, hht]⟩
  · intro fmt
    rfl

/-- C10: whenever the OGP policy decides "skip", the Main policy also decides
"skip": the OGP skip condition implies the Main skip condition. -/
theorem C10_ogp_skip_implies_main_skip (filename : String) (p : FFprobeOutput)
    (h : ogpSkip filename p = true) : mainSkip filename p = true := by
  simp only [ogpSkip, Bool.and_eq_true] at h
  obtain ⟨⟨⟨hh, h720⟩, _⟩, _⟩ := h
  have h7 : heightOr0 p ≤ 720 := by simpa [is720pOrLower] using h720
  simp only [mainSkip, Bool.and_eq_true]
  refine ⟨hh, ?_⟩
  simp only [is1080pOrLower, decide_eq_true_eq]
  omega

/-- Witness for C10: a concrete compliant input (h264, 480p, 60 s, 1000 B,
`.mp4` name) on which the OGP policy skips, hence the Main policy skips. -/
theorem C10_witness :
    mainSkip "v.mp4"
      (FFprobeOutput.mk [FFprobeStream.mk "video" "h264" (some 480)]
        (FFprobeFormat.mk (some 60) (some 1000))) = true :=
  C10_ogp_skip_implies_main_skip _ _ (by decide)

/-- C3 counterexample: a metadata value whose duration parses to `NaN`
(`none`) but whose video stream is an h264 720p stream of an `.mp4` file.
The Main policy decides "skip" on it, so an unparsable duration does not
force the Main rendition to be generated, contrary to the claim. -/
theorem C3_counterexample :
    (FFprobeOutput.mk [FFprobeStream.mk "video" "h264" (some 720)]
        (FFprobeFormat.mk none (some 1000))).format.duration = none ∧
    mainSkip "a.mp4"
      (FFprobeOutput.mk [FFprobeStream.mk "video" "h264" (some 720)]
        (FFprobeFormat.mk none (some 1000))) = true := by
  constructor
  · rfl
  · decide

/-- C3 (amended): when the video stream is absent both policies decide
"generate"; when the duration or size parses to `NaN` the OGP policy decides
"generate" (the Main policy does not consult duration or size). -/
theorem C3_missing_metadata_forces_generate (filename : String)
    (p : FFprobeOutput) :
    (videoStream p = none →
      ogpSkip filename p = false ∧ mainSkip filename p = false) ∧
    ((p.format.duration = none ∨ p.format.size = none) →
      ogpSkip filename p = false) := by
  constructor
  · intro hv
    constructor
    · simp [ogpSkip, hasH264Video, videoCodec, hv]
    · simp [mainSkip, hasH264Video, videoCodec, hv]
  · rintro (hd | hs)
    · simp [ogpSkip, jsLe, hd]
    · simp [ogpSkip, jsLe, hs]

/-- C8: the audio option list is exactly one of two fixed sequences, chosen
solely by the source audio codec: pass-through for `aac`, transcode to AAC
128k otherwise; it depends on nothing but the audio codec, and both
renditions' argument vectors embed the same list. -/
theorem C8_audio_option_selection (p : FFprobeOutput) :
    (audioOptions p = ["-c:a", "copy"] ∨
      audioOptions p = ["-c:a", "aac", "-b:a", "128k"]) ∧
    (audioOptions p = ["-c:a", "copy"] ↔
      (audioStream p).map (fun s => s.codec_name) = some "aac") ∧
    (∀ q : FFprobeOutput,
      (audioStream p).map (fun s => s.codec_name) =
          (audioStream q).map (fun s => s.codec_name) →
        audioOptions p = audioOptions q) ∧
    (∀ url, ∃ pre post, ogpArgsFile url p = pre ++ audioOptions p ++ post) ∧
    (∀ url, ∃ pre post, mainArgsFile url p = pre ++ audioOptions p ++ post) := by
  refine ⟨?_, ?_, ?_, ?_, ?_⟩
  · unfold audioOptions
    split
    · exact Or.inl rfl
    · exact Or.inr rfl
  · cases hb : hasAACAudio p
    · have hne : ¬ ((audioStream p).map (fun s => s.codec_name) = some "aac") := by
        simpa [hasAACAudio, beq_iff_eq] using hb
      simp [audioOptions, hb, hne]
    · have heq : (audioStream p).map (fun s => s.codec_name) = some "aac" := by
        simpa [hasAACAudio, beq_iff_eq] using hb
      simp [audioOptions, hb, heq]
  · intro q hq
    simp only [audioOptions, hasAACAudio, hq]
  · intro url
    exact ⟨_, _, rfl⟩
  · intro url
    exact ⟨_, _, rfl⟩

/-- C9 counterexample: on a concrete input the sized-file variant and the
streaming variant pass different argument vectors to the encoder for the OGP
rendition, so the two design variants are not functionally equivalent as
claimed. -/
theorem C9_counterexample :
    (ogpArgsFile "u" (FFprobeOutput.mk [] (FFprobeFormat.mk none none)) ==
      ogpArgsStream "u" (FFprobeOutput.mk [] (FFprobeFormat.mk none none)))
      = false := by
  decide

/-- C9 (amended): the two variants agree on the scale filters, the video
codec, the CRF values, the audio options and the MP4 output format, but they
are not parameter-identical: the sized-file variant caps the OGP duration at
480 s while the streaming variant has no cap, the container flags differ
(`+faststart` versus `frag_keyframe+empty_moov`), and the Main preset differs
(`fast` versus `veryfast`). -/
theorem C9_variant_parameter_comparison (url : String) (p : FFprobeOutput) :
    (ogpArgsFile url p = assembleArgs url (ogpParamsFile p) false ∧
      ogpArgsStream url p = assembleArgs url (ogpParamsStream p) true ∧
      mainArgsFile url p = assembleArgs url (mainParamsFile p) false ∧
      mainArgsStream url p = assembleArgs url (mainParamsStream p) true) ∧
    ((ogpParamsFile p).vfilter = (ogpParamsStream p).vfilter ∧
      (ogpParamsFile p).vcodec = (ogpParamsStream p).vcodec ∧
      (ogpParamsFile p).preset = (ogpParamsStream p).preset ∧
      (ogpParamsFile p).crf = (ogpParamsStream p).crf ∧
      (ogpParamsFile p).audio = (ogpParamsStream p).audio ∧
      (ogpParamsFile p).outFormat = (ogpParamsStream p).outFormat ∧
      (mainParamsFile p).vfilter = (mainParamsStream p).vfilter ∧
      (mainParamsFile p).vcodec = (mainParamsStream p).vcodec ∧
      (mainParamsFile p).crf = (mainParamsStream p).crf ∧
      (mainParamsFile p).audio = (mainParamsStream p).audio) ∧
    ((ogpParamsFile p).durationCap = some "480" ∧
      (ogpParamsStream p).durationCap = none ∧
      ((ogpParamsFile p).movflags == (ogpParamsStream p).movflags) = false ∧
      ((mainParamsFile p).movflags == (mainParamsStream p).movflags) = false ∧
      ((mainParamsFile p).preset == (mainParamsStream p).preset) = false) := by
  refine ⟨⟨?_, ?_, ?_, ?_⟩,
    ⟨rfl, rfl, rfl, rfl, rfl, rfl, rfl, rfl, rfl, rfl⟩,
    ⟨rfl, rfl, by rfl, by rfl, by rfl⟩⟩
  · simp [ogpArgsFile, assembleArgs, ogpParamsFile]
  · simp [ogpArgsStream, assembleArgs, ogpParamsStream]
  · simp [mainArgsFile, assembleArgs, mainParamsFile]
  · simp [mainArgsStream, assembleArgs, mainParamsStream]

/-- `res.ok` of the WHATWG fetch response: the status is in the range
200-299. -/
def resOk (status : Nat) : Bool :=
  decide (200 ≤ status) && decide (status ≤ 299)

/-- What the PUT response handler of `createOutStream` does: whether it
terminates the process fatally and whether it starts draining the response
body. -/
structure PutResponseOutcome where
  fatalExit : Bool
  bodyDrained : Bool
deriving DecidableEq, Repr

/-- The response handler of the remote branch of `createOutStream`
(`src/index.ts` lines 185-191): on `!res.ok` it logs and calls
`process.exit(1)`, so `res.arrayBuffer()` is never reached on that path; only
on an ok response does it drain the body (discarding it). -/
def handlePutResponse (status : Nat) : PutResponseOutcome :=
  if resOk status then { fatalExit := false, bodyDrained := true }
  else { fatalExit := true, bodyDrained := false }

/-- C5 counterexample: on a 500 response the handler terminates the job
fatally but exits before draining the response body, contrary to the claim
that the body is fully drained on every non-2xx response. -/
theorem C5_counterexample :
    resOk 500 = false ∧ (handlePutResponse 500).fatalExit = true ∧
      (handlePutResponse 500).bodyDrained = false := by
  decide

/-- C5 (amended): a non-2xx PUT response is fatal (`process.exit(1)`), and on
that path the response body is never drained: the process exits immediately;
the body is drained (and discarded) only on 2xx responses. -/
theorem C5_non2xx_fatal_without_drain (status : Nat) :
    (resOk status = false →
      (handlePutResponse status).fatalExit = true ∧
        (handlePutResponse status).bodyDrained = false) ∧
    (resOk status = true →
      (handlePutResponse status).fatalExit = false ∧
        (handlePutResponse status).bodyDrained = true) := by
  constructor <;> intro h <;> simp [handlePutResponse, h]

/-- How the delivery of one sized-file artifact ends. -/
inductive DeliverOutcome
  /-- the remote HTTP PUT completed with this response status -/
  | httpStatus (status : Nat)
  /-- the remote HTTP PUT failed with a network error -/
  | httpNetError
  /-- the local file write finished -/
  | localOk
  /-- the local file write emitted an error -/
  | localWriteError
deriving DecidableEq, Repr

/-- The observable end state of one sized-file execute→deliver sequence:
whether the job terminates fatally and whether the temporary file is still on
disk afterwards. -/
structure SizedRunResult where
  fatal : Bool
  tmpLeft : Bool
deriving DecidableEq, Repr

/-- One sized-file execute→deliver sequence (`src/index.ts`): `baseSpawnFFmpeg`
in `"file"` mode writes to a fresh `/tmp` path; on exit code 0 it resolves an
artifact whose `Symbol.dispose` unlinks the file, and the `using` binding in
`main` disposes it when the scope ends or an exception unwinds it; on a
non-zero exit code it rejects without unlinking (the `using` binding never
happens).  Delivery: a non-ok HTTP response or an HTTP network error calls
`process.exit(1)` inside the fetch handler, which terminates the process
without unwinding the `using` scope; a local write error rejects
`waitForFinish`, whose exception does unwind the `using` scope.
`tmpCreated` records whether the encoder had created the file before
failing. -/
def runSizedExecuteDeliver (tmpCreated : Bool) (encoderExit : Int)
    (d : DeliverOutcome) : SizedRunResult :=
  if encoderExit == 0 then
    match d with
    | DeliverOutcome.httpStatus s =>
      if resOk s then { fatal := false, tmpLeft := false }
      else { fatal := true, tmpLeft := true }
    | DeliverOutcome.httpNetError => { fatal := true, tmpLeft := true }
    | DeliverOutcome.localOk => { fatal := false, tmpLeft := false }
    | DeliverOutcome.localWriteError => { fatal := true, tmpLeft := false }
  else { fatal := true, tmpLeft := tmpCreated }

/-- C4: the temporary file is NOT deleted on every exit path.  It survives
the encoder-failure path (the rejection never unlinks) and the HTTP delivery
failure paths (`process.exit(1)` skips the `using` disposal); it is deleted
on the success paths and on a local write error. -/
theorem C4_tmp_cleanup_not_unconditional :
    (runSizedExecuteDeliver true 1 DeliverOutcome.localOk).tmpLeft = true ∧
    (runSizedExecuteDeliver true 0 (DeliverOutcome.httpStatus 500)).tmpLeft
        = true ∧
    (runSizedExecuteDeliver true 0 DeliverOutcome.httpNetError).tmpLeft
        = true ∧
    (runSizedExecuteDeliver true 0 (DeliverOutcome.httpStatus 200)).tmpLeft
        = false ∧
    (runSizedExecuteDeliver true 0 DeliverOutcome.localOk).tmpLeft = false ∧
    (runSizedExecuteDeliver true 0 DeliverOutcome.localWriteError).tmpLeft
        = false := by
  decide

/-- The observable events of one job run, in execution order. -/
inductive Event
  /-- ffprobe was run against the source -/
  | probeExec
  /-- the probe-JSON delivery's completion signal resolved (sized-file
  variant: `waitForFinish`, which for HTTP is the fetch promise, so it
  includes the response) -/
  | probeDelivered
  /-- the probe JSON was fully written into the delivery stream (streaming
  variant: the PassThrough `finish` event that `waitForStreamFinish`
  resolves on; for HTTP this does not include the response) -/
  | probeBodyWritten
  /-- the probe PUT HTTP response resolved, with `res.ok` (streaming
  variant: observed in the background, at latest at the
  `ensureAllFetchesDone` barrier) -/
  | probeResponse (ok : Bool)
  /-- the OGP policy was evaluated, with its decision -/
  | ogpDecision (skip : Bool)
  /-- the OGP encode was started -/
  | ogpEncodeStart
  /-- the OGP rendition delivery completed -/
  | ogpDelivered
  /-- the Main policy was evaluated, with its decision -/
  | mainDecision (skip : Bool)
  /-- the Main encode was started -/
  | mainEncodeStart
  /-- the Main rendition delivery completed -/
  | mainDelivered
  /-- the completion-report GET was issued -/
  | report
deriving DecidableEq, Repr

/-- Success or failure of each external step of a run. -/
structure Outcomes where
  probeOk : Bool
  probeDeliverOk : Bool
  ogpEncodeOk : Bool
  ogpDeliverOk : Bool
  mainEncodeOk : Bool
  mainDeliverOk : Bool
  reportOk : Bool
deriving DecidableEq, Repr

/-- The trace of one run together with the process exit code. -/
structure JobRun where
  trace : List Event
  exitCode : Nat
deriving DecidableEq, Repr

/-- The events of one rendition block of `main` and whether the block aborts
the job: the decision is evaluated; on "generate" the encode starts; a failed
encode or a failed delivery aborts; otherwise the delivery completes. -/
def renditionEvents (dec : Bool → Event) (enc del : Event)
    (skip encodeOk deliverOk : Bool) : List Event × Bool :=
  if skip then ([dec true], false)
  else if !encodeOk then ([dec false, enc], true)
  else if !deliverOk then ([dec false, enc], true)
  else ([dec false, enc, del], false)

/-- The OGP block of `main` (`src/index.ts` lines 44-72), skipped entirely
when no OGP destination is configured. -/
def ogpPart (filename : String) (p : FFprobeOutput) (ogpDest : Bool)
    (oc : Outcomes) : List Event × Bool :=
  if ogpDest then
    renditionEvents Event.ogpDecision Event.ogpEncodeStart Event.ogpDelivered
      (ogpSkip filename p) oc.ogpEncodeOk oc.ogpDeliverOk
  else ([], false)

/-- The Main block of `main` (`src/index.ts` lines 74-99), skipped entirely
when no Main destination is configured. -/
def mainPart (filename : String) (p : FFprobeOutput) (mainDest : Bool)
    (oc : Outcomes) : List Event × Bool :=
  if mainDest then
    renditionEvents Event.mainDecision Event.mainEncodeStart Event.mainDelivered
      (mainSkip filename p) oc.mainEncodeOk oc.mainDeliverOk
  else ([], false)

/-- The orchestration of `main` (`src/index.ts` lines 9-107) as a trace:
the probe runs and its JSON delivery is awaited (`await ... .waitForFinish()`
on line 27-30) before anything else; a probe failure rejects and a probe
delivery failure rejects or calls `process.exit(1)`, either way aborting with
a non-zero exit before any policy evaluation.  Then the OGP block, then the
Main block, each aborting the rest on failure.  Finally the report GET is
issued; its result is swallowed by `.catch(noop)` (line 102), so it never
affects the exit code - which is why `Outcomes.reportOk` does not occur
below. -/
def runJob (filename : String) (p : FFprobeOutput) (ogpDest mainDest : Bool)
    (oc : Outcomes) : JobRun :=
  if oc.probeOk && oc.probeDeliverOk then
    if (ogpPart filename p ogpDest oc).2 then
      { trace := Event.probeExec :: Event.probeDelivered ::
          (ogpPart filename p ogpDest oc).1,
        exitCode := 1 }
    else if (mainPart filename p mainDest oc).2 then
      { trace := Event.probeExec :: Event.probeDelivered ::
          ((ogpPart filename p ogpDest oc).1 ++
            (mainPart filename p mainDest oc).1),
        exitCode := 1 }
    else
      { trace := Event.probeExec :: Event.probeDelivered ::
          ((ogpPart filename p ogpDest oc).1 ++
            (mainPart filename p mainDest oc).1 ++ [Event.report]),
        exitCode := 0 }
  else { trace := [Event.probeExec], exitCode := 1 }

/-- Whether an event belongs to rendition processing: a policy decision, an
encode start, or a rendition delivery. -/
def isRenditionEvent : Event → Bool
  | Event.ogpDecision _ => true
  | Event.ogpEncodeStart => true
  | Event.ogpDelivered => true
  | Event.mainDecision _ => true
  | Event.mainEncodeStart => true
  | Event.mainDelivered => true
  | _ => false

/-- Every trace either is the aborted probe prefix `[probeExec]` or starts
with `probeExec, probeDelivered`. -/
theorem runJob_trace_shape (filename : String) (p : FFprobeOutput)
    (ogpDest mainDest : Bool) (oc : Outcomes) :
    ((oc.probeOk && oc.probeDeliverOk) = false ∧
      (runJob filename p ogpDest mainDest oc).trace = [Event.probeExec]) ∨
    ((oc.probeOk && oc.probeDeliverOk) = true ∧
      ∃ rest, (runJob filename p ogpDest mainDest oc).trace =
        Event.probeExec :: Event.probeDelivered :: rest) := by
  unfold runJob
  cases h : (oc.probeOk && oc.probeDeliverOk)
  · left
    simp
  · right
    refine ⟨rfl, ?_⟩
    simp only [if_true]
    split
    · exact ⟨_, rfl⟩
    · split
      · exact ⟨_, rfl⟩
      · exact ⟨_, rfl⟩

theorem renditionEvents_snd_eq_false (dec : Bool → Event) (enc del : Event)
    (skip : Bool) : (renditionEvents dec enc del skip true true).2 = false := by
  unfold renditionEvents
  cases skip <;> rfl

/-- Sized-file variant (`src/index.ts`): the probe-JSON delivery completion
(`probeDelivered`, which for HTTP includes the PUT response) precedes every
rendition event, and a probe or probe-delivery failure leaves a trace without
any rendition event. -/
theorem runJob_probe_ordering (filename : String)
    (p : FFprobeOutput) (ogpDest mainDest : Bool) (oc : Outcomes) :
    ((oc.probeOk = false ∨ oc.probeDeliverOk = false) →
      ∀ e ∈ (runJob filename p ogpDest mainDest oc).trace,
        isRenditionEvent e = false) ∧
    (∀ i e, (runJob filename p ogpDest mainDest oc).trace[i]? = some e →
      isRenditionEvent e = true →
      (runJob filename p ogpDest mainDest oc).trace[1]? =
          some Event.probeDelivered ∧ 1 < i) := by
  rcases runJob_trace_shape filename p ogpDest mainDest oc with
    ⟨hand, htr⟩ | ⟨hand, rest, htr⟩
  · constructor
    · intro _ e he
      rw [htr] at he
      simp only [List.mem_singleton] at he
      subst he
      rfl
    · intro i e hi hre
      rw [htr] at hi
      match i, hi with
      | 0, hi =>
        simp only [List.getElem?_cons_zero, Option.some.injEq] at hi
        subst hi
        exact absurd hre (by simp [isRenditionEvent])
      | n + 1, hi =>
        simp at hi
  · constructor
    · intro hfail
      rcases hfail with h | h <;> rw [h] at hand <;> simp at hand
    · intro i e hi hre
      rw [htr] at hi
      rw [htr]
      refine ⟨by simp, ?_⟩
      match i, hi with
      | 0, hi =>
        simp only [List.getElem?_cons_zero, Option.some.injEq] at hi
        subst hi
        exact absurd hre (by simp [isRenditionEvent])
      | 1, hi =>
        simp only [List.getElem?_cons_succ, List.getElem?_cons_zero,
          Option.some.injEq] at hi
        subst hi
        exact absurd hre (by simp [isRenditionEvent])
      | n + 2, hi => omega

/-- Success or failure of each external step of a streaming-variant run
(`part_000`).  `probeBodyOk` is the awaited step: the probe JSON being fully
written into the delivery stream.  `probeRespOk` is whether the background
probe PUT response is ok; it is never awaited by `main` before the
renditions. -/
structure OutcomesStream where
  probeOk : Bool
  probeBodyOk : Bool
  probeRespOk : Bool
  ogpEncodeOk : Bool
  ogpDeliverOk : Bool
  mainEncodeOk : Bool
  mainDeliverOk : Bool
deriving DecidableEq, Repr

/-- The OGP block of the streaming variant (`part_000` lines 38-62); the skip
condition is the same as in the sized-file variant. -/
def ogpPartS (filename : String) (p : FFprobeOutput) (ogpDest : Bool)
    (oc : OutcomesStream) : List Event × Bool :=
  if ogpDest then
    renditionEvents Event.ogpDecision Event.ogpEncodeStart Event.ogpDelivered
      (ogpSkip filename p) oc.ogpEncodeOk oc.ogpDeliverOk
  else ([], false)

/-- The Main block of the streaming variant (`part_000` lines 64-88). -/
def mainPartS (filename : String) (p : FFprobeOutput) (mainDest : Bool)
    (oc : OutcomesStream) : List Event × Bool :=
  if mainDest then
    renditionEvents Event.mainDecision Event.mainEncodeStart Event.mainDelivered
      (mainSkip filename p) oc.mainEncodeOk oc.mainDeliverOk
  else ([], false)

/-- The early-response event prefix: when the background probe PUT response
arrives before the rendition blocks and is ok, it is observed there. -/
def preRespEvents (respEarly : Bool) : List Event :=
  if respEarly then [Event.probeResponse true] else []

/-- The orchestration of `main` in the streaming variant (`part_000` lines
9-94) as a trace.  `main` awaits only
`waitForStreamFinish(Readable.from(raw).pipe(createOutStream(dest)))` (lines
22-24), which resolves on the PassThrough `finish` event - when the probe
JSON has been fully written into the request stream - NOT on the HTTP
response; the fetch promise is registered by `fetchForExecution` and only
joined at the `ensureAllFetchesDone` barrier (line 90) after both rendition
blocks.  A non-ok response triggers `process.exit(1)` in its background
`.then` handler whenever it arrives; `respEarly` selects between the two
extreme schedules: the response arriving before the rendition blocks, or
only at the barrier.  A probe failure or a body-write error rejects the
awaited promise and aborts before any rendition work.  Rendition
`deliverOk` covers the awaited body write of that rendition; the rendition
uploads' own background responses are not modelled, as they bear no ordering
relation to the probe delivery. -/
def runJobStream (filename : String) (p : FFprobeOutput)
    (ogpDest mainDest : Bool) (oc : OutcomesStream) (respEarly : Bool) :
    JobRun :=
  if oc.probeOk && oc.probeBodyOk then
    if respEarly && !oc.probeRespOk then
      { trace := [Event.probeExec, Event.probeBodyWritten,
          Event.probeResponse false],
        exitCode := 1 }
    else if (ogpPartS filename p ogpDest oc).2 then
      { trace := Event.probeExec :: Event.probeBodyWritten ::
          (preRespEvents respEarly ++ (ogpPartS filename p ogpDest oc).1),
        exitCode := 1 }
    else if (mainPartS filename p mainDest oc).2 then
      { trace := Event.probeExec :: Event.probeBodyWritten ::
          (preRespEvents respEarly ++ (ogpPartS filename p ogpDest oc).1 ++
            (mainPartS filename p mainDest oc).1),
        exitCode := 1 }
    else if respEarly then
      { trace := Event.probeExec :: Event.probeBodyWritten ::
          (preRespEvents respEarly ++ (ogpPartS filename p ogpDest oc).1 ++
            (mainPartS filename p mainDest oc).1 ++ [Event.report]),
        exitCode := 0 }
    else if oc.probeRespOk then
      { trace := Event.probeExec :: Event.probeBodyWritten ::
          ((ogpPartS filename p ogpDest oc).1 ++
            (mainPartS filename p mainDest oc).1 ++
            [Event.probeResponse true, Event.report]),
        exitCode := 0 }
    else
      { trace := Event.probeExec :: Event.probeBodyWritten ::
          ((ogpPartS filename p ogpDest oc).1 ++
            (mainPartS filename p mainDest oc).1 ++
            [Event.probeResponse false]),
        exitCode := 1 }
  else { trace := [Event.probeExec], exitCode := 1 }

/-- Every streaming-variant trace either is the aborted probe prefix
`[probeExec]` or starts with `probeExec, probeBodyWritten`. -/
theorem runJobStream_trace_shape (filename : String) (p : FFprobeOutput)
    (ogpDest mainDest : Bool) (oc : OutcomesStream) (respEarly : Bool) :
    ((oc.probeOk && oc.probeBodyOk) = false ∧
      (runJobStream filename p ogpDest mainDest oc respEarly).trace =
        [Event.probeExec]) ∨
    ((oc.probeOk && oc.probeBodyOk) = true ∧
      ∃ rest, (runJobStream filename p ogpDest mainDest oc respEarly).trace =
        Event.probeExec :: Event.probeBodyWritten :: rest) := by
  unfold runJobStream
  cases h : (oc.probeOk && oc.probeBodyOk)
  · left
    simp
  · right
    refine ⟨rfl, ?_⟩
    simp only [if_true]
    split
    · exact ⟨_, rfl⟩
    · split
      · exact ⟨_, rfl⟩
      · split
        · exact ⟨_, rfl⟩
        · split
          · exact ⟨_, rfl⟩
          · split
            · exact ⟨_, rfl⟩
            · exact ⟨_, rfl⟩

/-- Streaming variant: what `main` actually awaits before the rendition
blocks is the probe body write (`probeBodyWritten` at index 1), and a probe
or body-write failure aborts before any rendition work; the HTTP response
carries no such ordering guarantee. -/
theorem runJobStream_probe_ordering (filename : String) (p : FFprobeOutput)
    (ogpDest mainDest : Bool) (oc : OutcomesStream) (respEarly : Bool) :
    ((oc.probeOk = false ∨ oc.probeBodyOk = false) →
      ∀ e ∈ (runJobStream filename p ogpDest mainDest oc respEarly).trace,
        isRenditionEvent e = false) ∧
    (∀ i e,
      (runJobStream filename p ogpDest mainDest oc respEarly).trace[i]? =
        some e →
      isRenditionEvent e = true →
      (runJobStream filename p ogpDest mainDest oc respEarly).trace[1]? =
          some Event.probeBodyWritten ∧ 1 < i) := by
  rcases runJobStream_trace_shape filename p ogpDest mainDest oc respEarly
    with ⟨hand, htr⟩ | ⟨hand, rest, htr⟩
  · constructor
    · intro _ e he
      rw [htr] at he
      simp only [List.mem_singleton] at he
      subst he
      rfl
    · intro i e hi hre
      rw [htr] at hi
      match i, hi with
      | 0, hi =>
        simp only [List.getElem?_cons_zero, Option.some.injEq] at hi
        subst hi
        exact absurd hre (by simp [isRenditionEvent])
      | n + 1, hi =>
        simp at hi
  · constructor
    · intro hfail
      rcases hfail with h | h <;> rw [h] at hand <;> simp at hand
    · intro i e hi hre
      rw [htr] at hi
      rw [htr]
      refine ⟨by simp, ?_⟩
      match i, hi with
      | 0, hi =>
        simp only [List.getElem?_cons_zero, Option.some.injEq] at hi
        subst hi
        exact absurd hre (by simp [isRenditionEvent])
      | 1, hi =>
        simp only [List.getElem?_cons_succ, List.getElem?_cons_zero,
          Option.some.injEq] at hi
        subst hi
        exact absurd hre (by simp [isRenditionEvent])
      | n + 2, hi => omega

/-- C6 counterexample: a concrete streaming-variant run (`part_000`, both
destinations set, non-compliant source, probe PUT response non-2xx arriving
only at the `ensureAllFetchesDone` barrier).  Both rendition decisions,
encodes and deliveries happen at indices 2-7, strictly before the probe
delivery's response resolves at index 8, and the run performed all rendition
work although the probe-JSON delivery failed - refuting both halves of the
claim for "every run". -/
theorem C6_counterexample :
    (runJobStream "x" (FFprobeOutput.mk [] (FFprobeFormat.mk none none))
        true true (OutcomesStream.mk true true false true true true true)
        false).trace =
      [Event.probeExec, Event.probeBodyWritten, Event.ogpDecision false,
       Event.ogpEncodeStart, Event.ogpDelivered, Event.mainDecision false,
       Event.mainEncodeStart, Event.mainDelivered,
       Event.probeResponse false] ∧
    (runJobStream "x" (FFprobeOutput.mk [] (FFprobeFormat.mk none none))
        true true (OutcomesStream.mk true true false true true true true)
        false).exitCode = 1 ∧
    isRenditionEvent (Event.ogpDecision false) = true := by
  refine ⟨by decide, by decide, rfl⟩

/-- C6 (amended): in the sized-file variant (`src/index.ts`) the probe-JSON
delivery's completion signal - including the remote transport's response -
has resolved before any rendition decision or encode, and a probe or
probe-delivery failure prevents all rendition work.  In the streaming
variant (`part_000`) only the complete writing of the probe JSON into the
delivery stream is awaited before rendition work, and a probe or body-write
failure prevents all rendition work; the HTTP response is observed in the
background, so it carries no ordering guarantee relative to the rendition
work. -/
theorem C6_probe_ordering_by_variant (filename : String) (p : FFprobeOutput)
    (ogpDest mainDest : Bool) (oc : Outcomes) (ocs : OutcomesStream)
    (respEarly : Bool) :
    (((oc.probeOk = false ∨ oc.probeDeliverOk = false) →
      ∀ e ∈ (runJob filename p ogpDest mainDest oc).trace,
        isRenditionEvent e = false) ∧
     (∀ i e, (runJob filename p ogpDest mainDest oc).trace[i]? = some e →
      isRenditionEvent e = true →
      (runJob filename p ogpDest mainDest oc).trace[1]? =
          some Event.probeDelivered ∧ 1 < i)) ∧
    (((ocs.probeOk = false ∨ ocs.probeBodyOk = false) →
      ∀ e ∈ (runJobStream filename p ogpDest mainDest ocs respEarly).trace,
        isRenditionEvent e = false) ∧
     (∀ i e,
      (runJobStream filename p ogpDest mainDest ocs respEarly).trace[i]? =
        some e →
      isRenditionEvent e = true →
      (runJobStream filename p ogpDest mainDest ocs respEarly).trace[1]? =
          some Event.probeBodyWritten ∧ 1 < i)) :=
  ⟨runJob_probe_ordering filename p ogpDest mainDest oc,
    runJobStream_probe_ordering filename p ogpDest mainDest ocs respEarly⟩

/-- C7: when probing, both rendition blocks and all deliveries succeed, the
job exits 0 even though the report call fails (it is swallowed by
`.catch(noop)`), and the report is the last event of the trace - issued only
after all rendition deliveries completed. -/
theorem C7_report_failure_nonfatal (filename : String) (p : FFprobeOutput)
    (ogpDest mainDest : Bool) (oc : Outcomes)
    (hp : oc.probeOk = true) (hpd : oc.probeDeliverOk = true)
    (hoe : oc.ogpEncodeOk = true) (hod : oc.ogpDeliverOk = true)
    (hme : oc.mainEncodeOk = true) (hmd : oc.mainDeliverOk = true)
    (_hr : oc.reportOk = false) :
    (runJob filename p ogpDest mainDest oc).exitCode = 0 ∧
    (runJob filename p ogpDest mainDest oc).trace.getLast? =
      some Event.report := by
  have hogp : (ogpPart filename p ogpDest oc).2 = false := by
    unfold ogpPart
    rw [hoe, hod]
    cases ogpDest
    · rfl
    · simp [renditionEvents_snd_eq_false]
  have hmain : (mainPart filename p mainDest oc).2 = false := by
    unfold mainPart
    rw [hme, hmd]
    cases mainDest
    · rfl
    · simp [renditionEvents_snd_eq_false]
  unfold runJob
  rw [hp, hpd, hogp, hmain]
  simp only [Bool.and_self, if_true, Bool.false_eq_true, if_false]
  constructor
  · trivial
  · have hshape : Event.probeExec :: Event.probeDelivered ::
        ((ogpPart filename p ogpDest oc).1 ++
          (mainPart filename p mainDest oc).1 ++ [Event.report]) =
        (Event.probeExec :: Event.probeDelivered ::
          ((ogpPart filename p ogpDest oc).1 ++
            (mainPart filename p mainDest oc).1)) ++ [Event.report] := by
      simp
    rw [hshape, List.getLast?_concat]

/-- Witness for C7: a concrete all-successful run whose report call fails
still exits 0 with the report event last. -/
theorem C7_witness :
    (runJob "clip.webm" (FFprobeOutput.mk [] (FFprobeFormat.mk none none))
        true true (Outcomes.mk true true true true true true false)).exitCode
        = 0 ∧
    (runJob "clip.webm" (FFprobeOutput.mk [] (FFprobeFormat.mk none none))
        true true
        (Outcomes.mk true true true true true true false)).trace.getLast?
        = some Event.report :=
  C7_report_failure_nonfatal _ _ _ _ _ rfl rfl rfl rfl rfl rfl rfl

end Transcoder
